import Mathlib

/-!
Shallow embedding of `src/Usuario.ts` (hexagonal user-management service).

The TypeScript source is effectful: `new Date()` stamps the current time,
`generarId` draws a random id, and the notifier may fail.  The embedding
makes those effects explicit parameters: each constructing operation takes
`ahora : Nat` (the clock reading) and `idGenerado : String` (the value
`generarId()` would return), and each use case takes `notifFalla : Bool`
(whether the injected notifier rejects).  Thrown domain exceptions become
`Except ErrorDominio`.  Use cases additionally return the repository state,
the log lines emitted, and the ordered list of port calls performed, so that
claims about logging and about which ports are reached are stated directly.
-/

/-- The domain entity `Usuario` (fields `id`, `nombre`, `email`,
`fechaCreacion`); the timestamp is a `Nat` clock reading. -/
structure Usuario where
  id : String
  nombre : String
  email : String
  fechaCreacion : Nat
deriving Repr, DecidableEq

/-- The errors thrown by the domain and application layers: the two
validation `Error`s of `Usuario.validar`, `UsuarioNoEncontradoError`
(carrying its criterion string) and `UsuarioDuplicadoError` (carrying the
offending email). -/
inductive ErrorDominio where
  | nombreInvalido
  | emailInvalido
  | noEncontrado (criterio : String)
  | duplicado (email : String)
deriving Repr, DecidableEq

/-- A character admissible in a segment of the email pattern: the regex
classes are all of the form the complement of whitespace and the at sign. -/
def caracterPermitido (c : Char) : Bool :=
  !c.isWhitespace && c ≠ '@'

/-- Split a character list at its unique at sign: `some (before, after)`
when exactly one at sign occurs, `none` otherwise.  (The anchored regex of
`esEmailValido` can match only strings with exactly one at sign, since the
at sign is excluded from every other character class.) -/
def divideEnArroba : List Char → Option (List Char × List Char)
  | [] => none
  | c :: rest =>
    if c = '@' then
      if rest.contains '@' then none else some ([], rest)
    else
      match divideEnArroba rest with
      | some (l, r) => some (c :: l, r)
      | none => none

/-- `Usuario.esEmailValido`: whether the email matches the anchored regular
expression of the source, one or more non-space non-at characters, an at
sign, one or more non-space non-at characters, a dot, one or more non-space
non-at characters.  The part after the at sign matches its subpattern
exactly when it is dot-decomposable with a nonempty segment on each side,
i.e. when it contains a dot that is neither its first nor its last
character. -/
def esEmailValido (email : String) : Bool :=
  match divideEnArroba email.toList with
  | none => false
  | some (loc, dom) =>
    !loc.isEmpty && loc.all caracterPermitido && dom.all caracterPermitido &&
      ((dom.drop 1).dropLast.contains '.')

/-- `String.prototype.trim`: drop whitespace from both ends of the
character list. -/
def recortar (cs : List Char) : List Char :=
  ((cs.dropWhile Char.isWhitespace).reverse.dropWhile Char.isWhitespace).reverse

/-- `Usuario.validar`: the name must be truthy with trimmed length at least
2, then the email must be truthy and match the pattern; the first failing
check raises. -/
def validar (u : Usuario) : Except ErrorDominio Unit :=
  if u.nombre = "" || (recortar u.nombre.toList).length < 2 then
    .error .nombreInvalido
  else if u.email = "" || !esEmailValido u.email then
    .error .emailInvalido
  else
    .ok ()

/-- The `Usuario` constructor: take the supplied id when it is truthy
(JavaScript `id || this.generarId()` treats the empty string as absent),
otherwise the freshly generated one; stamp `fechaCreacion` with the current
clock; then run `validar`, propagating its exception. -/
def construirUsuario (nombre email : String) (idOpcional : Option String)
    (idGenerado : String) (ahora : Nat) : Except ErrorDominio Usuario :=
  let id :=
    match idOpcional with
    | some s => if s = "" then idGenerado else s
    | none => idGenerado
  let u : Usuario := { id := id, nombre := nombre, email := email, fechaCreacion := ahora }
  match validar u with
  | .error e => .error e
  | .ok _ => .ok u

/-- `Usuario.actualizarDatos`: `nuevoNombre || this.nombre` and
`nuevoEmail || this.email` (so an absent or empty argument keeps the
current field), then construct a new `Usuario` with the same id. -/
def actualizarDatos (u : Usuario) (nuevoNombre nuevoEmail : Option String)
    (idGenerado : String) (ahora : Nat) : Except ErrorDominio Usuario :=
  let nombre :=
    match nuevoNombre with
    | some s => if s = "" then u.nombre else s
    | none => u.nombre
  let email :=
    match nuevoEmail with
    | some s => if s = "" then u.email else s
    | none => u.email
  construirUsuario nombre email (some u.id) idGenerado ahora

/-- `Usuario.esIgual`: business equality compares emails only. -/
def esIgual (u v : Usuario) : Bool :=
  u.email = v.email

/-- `RepositorioUsuarioEnMemoria`: a `Map` keyed by id, in insertion order,
modelled as the list of its values (ids unique by construction of
`guardar`). -/
abbrev Almacen := List Usuario

/-- `guardar` (`Map.set`): replace in place when the id is already a key,
append otherwise. -/
def guardar (s : Almacen) (u : Usuario) : Almacen :=
  if s.any (fun v => v.id = u.id) then
    s.map (fun v => if v.id = u.id then u else v)
  else
    s ++ [u]

/-- `obtenerPorId` (`Map.get`, `null` when absent). -/
def obtenerPorId (s : Almacen) (id : String) : Option Usuario :=
  s.find? (fun v => v.id = id)

/-- `obtenerPorEmail`: first user (in insertion order) with that exact
email, `null` when none. -/
def obtenerPorEmail (s : Almacen) (email : String) : Option Usuario :=
  s.find? (fun v => v.email = email)

/-- `eliminar` (`Map.delete`): whether a record with this id existed,
together with the store with every such record removed. -/
def eliminar (s : Almacen) (id : String) : Bool × Almacen :=
  (s.any (fun v => v.id = id), s.filter (fun v => v.id ≠ id))

/-- `existe`: defined in the source as `obtenerPorEmail(email) !== null`. -/
def existe (s : Almacen) (email : String) : Bool :=
  (obtenerPorEmail s email).isSome

/-- A line written through the `Logger` port, tagged with its severity. -/
inductive Registro where
  | info (mensaje : String)
  | advertencia (mensaje : String)
  | error (mensaje : String)
deriving Repr, DecidableEq

/-- A call performed through the repository or notifier ports, recorded in
the order the service issues them. -/
inductive Llamada where
  | existe (email : String)
  | guardar (id : String)
  | obtenerPorId (id : String)
  | obtenerTodos
  | eliminar (id : String)
  | enviarBienvenida (id : String)
  | notificarActualizacion (id : String)
deriving Repr, DecidableEq

/-- `CrearUsuarioDto`. -/
structure CrearUsuarioDto where
  nombre : String
  email : String
deriving Repr, DecidableEq

/-- `ActualizarUsuarioDto`; the optional fields are `Option String`, with
`none` for an absent property. -/
structure ActualizarUsuarioDto where
  id : String
  nombre : Option String
  email : Option String
deriving Repr, DecidableEq

/-- `UsuarioRespuestaDto`. -/
structure UsuarioRespuestaDto where
  id : String
  nombre : String
  email : String
  fechaCreacion : Nat
deriving Repr, DecidableEq

/-- `UsuarioService.mapearADto`: the pure field projection. -/
def mapearADto (u : Usuario) : UsuarioRespuestaDto :=
  { id := u.id, nombre := u.nombre, email := u.email, fechaCreacion := u.fechaCreacion }

/-- Outcome of one use-case invocation: the returned value or thrown error,
the repository state afterwards, the log lines and the port calls. -/
structure Salida (α : Type) where
  resultado : Except ErrorDominio α
  almacen : Almacen
  registros : List Registro
  llamadas : List Llamada
deriving Repr

/-- `UsuarioService.agregarUsuario`: check `existe(email)` and throw
`UsuarioDuplicadoError` after a warning when it holds; otherwise construct
the user (propagating validation errors), save it, attempt the welcome
notification swallowing and logging its failure, and return the DTO. -/
def agregarUsuario (s : Almacen) (datos : CrearUsuarioDto)
    (idGenerado : String) (ahora : Nat) (notifFalla : Bool) : Salida UsuarioRespuestaDto :=
  let r0 : List Registro := [.info "Iniciando creación de usuario"]
  let c0 : List Llamada := [.existe datos.email]
  if existe s datos.email then
    { resultado := .error (.duplicado datos.email)
      almacen := s
      registros := r0 ++ [.advertencia "Intento de crear usuario duplicado"]
      llamadas := c0 }
  else
    match construirUsuario datos.nombre datos.email none idGenerado ahora with
    | .error e =>
      { resultado := .error e, almacen := s, registros := r0, llamadas := c0 }
    | .ok u =>
      let rNotif : List Registro :=
        if notifFalla then [.error "Error enviando notificación de bienvenida"] else []
      { resultado := .ok (mapearADto u)
        almacen := guardar s u
        registros := r0 ++ rNotif ++ [.info "Usuario creado exitosamente"]
        llamadas := c0 ++ [.guardar u.id, .enviarBienvenida u.id] }

/-- `UsuarioService.obtenerUsuarios`: list all, map to DTOs, log the count. -/
def obtenerUsuarios (s : Almacen) : Salida (List UsuarioRespuestaDto) :=
  { resultado := .ok (s.map mapearADto)
    almacen := s
    registros := [.info "Obteniendo lista de usuarios",
      .info ("Se encontraron " ++ toString s.length ++ " usuarios")]
    llamadas := [.obtenerTodos] }

/-- `UsuarioService.obtenerUsuarioPorId`: fetch by id, throwing
`UsuarioNoEncontradoError` after a warning when absent. -/
def obtenerUsuarioPorId (s : Almacen) (id : String) : Salida UsuarioRespuestaDto :=
  let r0 : List Registro := [.info "Buscando usuario por ID"]
  let c0 : List Llamada := [.obtenerPorId id]
  match obtenerPorId s id with
  | none =>
    { resultado := .error (.noEncontrado ("ID: " ++ id))
      almacen := s
      registros := r0 ++ [.advertencia "Usuario no encontrado por ID"]
      llamadas := c0 }
  | some u =>
    { resultado := .ok (mapearADto u), almacen := s, registros := r0, llamadas := c0 }

/-- Tail of `UsuarioService.actualizarUsuario` after the duplicate-email
verification: build the replacement through `actualizarDatos` (propagating
validation errors before any save), save it, attempt the update
notification swallowing and logging its failure, and return the DTO. -/
def actualizarTrasVerificacion (s : Almacen) (datos : ActualizarUsuarioDto) (uex : Usuario)
    (idGenerado : String) (ahora : Nat) (notifFalla : Bool)
    (r0 : List Registro) (c0 : List Llamada) : Salida UsuarioRespuestaDto :=
  match actualizarDatos uex datos.nombre datos.email idGenerado ahora with
  | .error e =>
    { resultado := .error e, almacen := s, registros := r0, llamadas := c0 }
  | .ok uact =>
    let rNotif : List Registro :=
      if notifFalla then [.error "Error enviando notificación de actualización"] else []
    { resultado := .ok (mapearADto uact)
      almacen := guardar s uact
      registros := r0 ++ rNotif ++ [.info "Usuario actualizado exitosamente"]
      llamadas := c0 ++ [.guardar uact.id, .notificarActualizacion uact.id] }

/-- `UsuarioService.actualizarUsuario`: fetch by id, throwing
`UsuarioNoEncontradoError` when absent; when a truthy email is supplied
that differs from the current one, check `existe` and throw
`UsuarioDuplicadoError` when it holds; then proceed as
`actualizarTrasVerificacion`. -/
def actualizarUsuario (s : Almacen) (datos : ActualizarUsuarioDto)
    (idGenerado : String) (ahora : Nat) (notifFalla : Bool) : Salida UsuarioRespuestaDto :=
  let r0 : List Registro := [.info "Actualizando usuario"]
  let c0 : List Llamada := [.obtenerPorId datos.id]
  match obtenerPorId s datos.id with
  | none =>
    { resultado := .error (.noEncontrado ("ID: " ++ datos.id))
      almacen := s, registros := r0, llamadas := c0 }
  | some uex =>
    match datos.email with
    | some e =>
      if e ≠ "" && e ≠ uex.email then
        if existe s e then
          { resultado := .error (.duplicado e)
            almacen := s, registros := r0, llamadas := c0 ++ [.existe e] }
        else
          actualizarTrasVerificacion s datos uex idGenerado ahora notifFalla r0
            (c0 ++ [.existe e])
      else
        actualizarTrasVerificacion s datos uex idGenerado ahora notifFalla r0 c0
    | none => actualizarTrasVerificacion s datos uex idGenerado ahora notifFalla r0 c0

/-- `UsuarioService.eliminarUsuario`: delete through the repository,
throwing `UsuarioNoEncontradoError` after a warning when nothing was
deleted, returning `true` otherwise. -/
def eliminarUsuario (s : Almacen) (id : String) : Salida Bool :=
  let r0 : List Registro := [.info "Eliminando usuario"]
  let c0 : List Llamada := [.eliminar id]
  let borrado := eliminar s id
  if borrado.1 then
    { resultado := .ok true
      almacen := borrado.2
      registros := r0 ++ [.info "Usuario eliminado exitosamente"]
      llamadas := c0 }
  else
    { resultado := .error (.noEncontrado ("ID: " ++ id))
      almacen := borrado.2
      registros := r0 ++ [.advertencia "No se pudo eliminar el usuario"]
      llamadas := c0 }

/-- One invocation of one of the five use cases, with the environment
(generated id, clock reading, notifier behaviour) it runs under. -/
inductive CasoDeUso where
  | crear (datos : CrearUsuarioDto) (idGenerado : String) (ahora : Nat) (notifFalla : Bool)
  | listar
  | porId (id : String)
  | actualizar (datos : ActualizarUsuarioDto) (idGenerado : String) (ahora : Nat)
      (notifFalla : Bool)
  | borrar (id : String)

/-- The repository state after running one use case on a store. -/
def ejecutar (s : Almacen) : CasoDeUso → Almacen
  | .crear d g t nf => (agregarUsuario s d g t nf).almacen
  | .listar => (obtenerUsuarios s).almacen
  | .porId i => (obtenerUsuarioPorId s i).almacen
  | .actualizar d g t nf => (actualizarUsuario s d g t nf).almacen
  | .borrar i => (eliminarUsuario s i).almacen

/-- The repository state after a sequence of use cases starting from the
empty store. -/
def ejecutarTodos (cs : List CasoDeUso) : Almacen :=
  cs.foldl ejecutar []

/-- Whether a user passes `validar`. -/
def esValido (u : Usuario) : Bool :=
  match validar u with
  | .ok _ => true
  | .error _ => false

/-- Whether every user held in the store passes `validar`. -/
def almacenValido (s : Almacen) : Bool :=
  s.all esValido

/-! ## Helper lemmas -/

/-- `validar` inspects only the `nombre` and `email` fields. -/
theorem validar_congr (u v : Usuario) (hn : u.nombre = v.nombre)
    (he : u.email = v.email) : validar u = validar v := by
  simp [validar, hn, he]

/-- Specification of a successful construction: the fields of the value,
that it passes `validar`, and the id actually chosen. -/
theorem construirUsuario_ok_spec (n e : String) (io : Option String) (g : String)
    (t : Nat) (v : Usuario) (h : construirUsuario n e io g t = .ok v) :
    v.nombre = n ∧ v.email = e ∧ v.fechaCreacion = t ∧ validar v = .ok () ∧
      v.id = (match io with | some s => if s = "" then g else s | none => g) := by
  unfold construirUsuario at h
  cases io with
  | none =>
    dsimp only at h ⊢
    split at h
    · exact Except.noConfusion h
    · rename_i x heq
      obtain rfl := Except.ok.inj h
      exact ⟨rfl, rfl, rfl, by cases x; exact heq, rfl⟩
  | some s =>
    dsimp only at h ⊢
    split at h
    · exact Except.noConfusion h
    · rename_i x heq
      obtain rfl := Except.ok.inj h
      exact ⟨rfl, rfl, rfl, by cases x; exact heq, rfl⟩

/-- When the head of the store does not carry the id being saved,
`guardar` acts on the tail. -/
theorem guardar_cons (v : Usuario) (s : Almacen) (u : Usuario) (h : ¬ v.id = u.id) :
    guardar (v :: s) u = v :: guardar s u := by
  by_cases hs : s.any (fun w => w.id = u.id)
  · simp [guardar, List.any_cons, h, hs]
  · simp [guardar, List.any_cons, h, hs]

/-- After saving `u`, looking its id up returns `u` itself. -/
theorem obtenerPorId_guardar (s : Almacen) (u : Usuario) :
    obtenerPorId (guardar s u) u.id = some u := by
  induction s with
  | nil => simp [guardar, obtenerPorId]
  | cons v s ih =>
    by_cases h : v.id = u.id
    · simp [guardar, obtenerPorId, List.any_cons, h, List.find?_cons]
    · rw [guardar_cons v s u h]
      simpa [obtenerPorId, List.find?_cons, h] using ih

/-- Every member of the store after a save is the saved user or a previous
member. -/
theorem mem_guardar (s : Almacen) (u v : Usuario) (h : v ∈ guardar s u) :
    v = u ∨ v ∈ s := by
  unfold guardar at h
  split at h
  · obtain ⟨w, hw, hwe⟩ := List.mem_map.mp h
    by_cases hid : w.id = u.id
    · left; rw [← hwe]; simp [hid]
    · right
      have : w = v := by simpa [hid] using hwe
      exact this ▸ hw
  · rcases List.mem_append.mp h with h1 | h1
    · right; exact h1
    · left; simpa using h1

/-- A successfully constructed user passes `validar`. -/
theorem esValido_of_construir (n e : String) (io : Option String) (g : String) (t : Nat)
    (u : Usuario) (h : construirUsuario n e io g t = .ok u) : esValido u = true := by
  have hv := (construirUsuario_ok_spec n e io g t u h).2.2.2.1
  simp [esValido, hv]

/-- A user produced by `actualizarDatos` passes `validar`. -/
theorem esValido_of_actualizarDatos (u : Usuario) (nn ne : Option String) (g : String)
    (t : Nat) (v : Usuario) (h : actualizarDatos u nn ne g t = .ok v) :
    esValido v = true := by
  unfold actualizarDatos at h
  exact esValido_of_construir _ _ _ _ _ _ h

/-- Membership formulation of `almacenValido`. -/
theorem almacenValido_iff (s : Almacen) :
    almacenValido s = true ↔ ∀ u ∈ s, esValido u = true := by
  simp [almacenValido, List.all_eq_true]

/-- Saving a valid user in a valid store keeps the store valid. -/
theorem almacenValido_guardar (s : Almacen) (u : Usuario)
    (hs : almacenValido s = true) (hu : esValido u = true) :
    almacenValido (guardar s u) = true := by
  rw [almacenValido_iff] at hs ⊢
  intro v hv
  rcases mem_guardar s u v hv with rfl | h
  · exact hu
  · exact hs v h

/-- The store after `agregarUsuario` is the old store or the old store with
one successfully constructed user saved. -/
theorem almacen_agregarUsuario (s : Almacen) (d : CrearUsuarioDto) (g : String)
    (t : Nat) (nf : Bool) :
    (agregarUsuario s d g t nf).almacen = s ∨
    ∃ u, construirUsuario d.nombre d.email none g t = .ok u ∧
      (agregarUsuario s d g t nf).almacen = guardar s u := by
  by_cases hex : existe s d.email
  · left; simp [agregarUsuario, hex]
  · cases hc : construirUsuario d.nombre d.email none g t with
    | error e => left; simp [agregarUsuario, hex, hc]
    | ok u => right; exact ⟨u, rfl, by simp [agregarUsuario, hex, hc]⟩

/-- The store after `actualizarTrasVerificacion` is the old store or the
old store with one user produced by `actualizarDatos` saved. -/
theorem almacen_actualizarTras (s : Almacen) (d : ActualizarUsuarioDto) (uex : Usuario)
    (g : String) (t : Nat) (nf : Bool) (r0 : List Registro) (c0 : List Llamada) :
    (actualizarTrasVerificacion s d uex g t nf r0 c0).almacen = s ∨
    ∃ u, actualizarDatos uex d.nombre d.email g t = .ok u ∧
      (actualizarTrasVerificacion s d uex g t nf r0 c0).almacen = guardar s u := by
  cases hc : actualizarDatos uex d.nombre d.email g t with
  | error e => left; simp [actualizarTrasVerificacion, hc]
  | ok u => right; exact ⟨u, rfl, by simp [actualizarTrasVerificacion, hc]⟩

/-- The store after `actualizarUsuario` is the old store or the old store
with one user produced by `actualizarDatos` saved. -/
theorem almacen_actualizarUsuario (s : Almacen) (d : ActualizarUsuarioDto) (g : String)
    (t : Nat) (nf : Bool) :
    (actualizarUsuario s d g t nf).almacen = s ∨
    ∃ uex u, actualizarDatos uex d.nombre d.email g t = .ok u ∧
      (actualizarUsuario s d g t nf).almacen = guardar s u := by
  unfold actualizarUsuario
  cases hex : obtenerPorId s d.id with
  | none => left; rfl
  | some uex =>
    dsimp only
    cases hem : d.email with
    | none =>
      rcases almacen_actualizarTras s d uex g t nf _ _ with h | ⟨u, hu, h⟩
      · left; exact h
      · right; rw [hem] at hu; exact ⟨uex, u, hu, h⟩
    | some e =>
      dsimp only
      by_cases hne : e ≠ "" && e ≠ uex.email
      · rw [if_pos hne]
        by_cases hdup : existe s e
        · rw [if_pos hdup]; left; rfl
        · rw [if_neg hdup]
          rcases almacen_actualizarTras s d uex g t nf _ _ with h | ⟨u, hu, h⟩
          · left; exact h
          · right; rw [hem] at hu; exact ⟨uex, u, hu, h⟩
      · rw [if_neg hne]
        rcases almacen_actualizarTras s d uex g t nf _ _ with h | ⟨u, hu, h⟩
        · left; exact h
        · right; rw [hem] at hu; exact ⟨uex, u, hu, h⟩

/-- Each use case preserves validity of every stored user. -/
theorem almacenValido_ejecutar (s : Almacen) (c : CasoDeUso)
    (h : almacenValido s = true) : almacenValido (ejecutar s c) = true := by
  cases c with
  | crear d g t nf =>
    rcases almacen_agregarUsuario s d g t nf with he | ⟨u, hu, he⟩
    · rw [ejecutar, he]; exact h
    · rw [ejecutar, he]
      exact almacenValido_guardar s u h (esValido_of_construir _ _ _ _ _ _ hu)
  | listar => exact h
  | porId i =>
    show almacenValido (obtenerUsuarioPorId s i).almacen = true
    unfold obtenerUsuarioPorId
    cases obtenerPorId s i <;> exact h
  | actualizar d g t nf =>
    rcases almacen_actualizarUsuario s d g t nf with he | ⟨uex, u, hu, he⟩
    · rw [ejecutar, he]; exact h
    · rw [ejecutar, he]
      exact almacenValido_guardar s u h (esValido_of_actualizarDatos _ _ _ _ _ _ hu)
  | borrar i =>
    show almacenValido (eliminarUsuario s i).almacen = true
    have harm : (eliminarUsuario s i).almacen = (eliminar s i).2 := by
      unfold eliminarUsuario
      dsimp only
      split <;> rfl
    rw [harm]
    rw [almacenValido_iff]
    intro u hu
    exact (almacenValido_iff s).mp h u (List.mem_of_mem_filter hu)

/-- Validity is preserved along any fold of use cases. -/
theorem almacenValido_foldl (cs : List CasoDeUso) :
    ∀ s : Almacen, almacenValido s = true →
      almacenValido (cs.foldl ejecutar s) = true := by
  induction cs with
  | nil => intro s h; exact h
  | cons c cs ih =>
    intro s h
    exact ih (ejecutar s c) (almacenValido_ejecutar s c h)

/-! ## Claim theorems -/

/-- C9: starting from the empty store, after any sequence of the five use
cases every user held in the repository passes `validar` (trimmed name of
length at least 2, email matching the pattern): every value that reaches
`guardar` is a freshly constructed, validated `Usuario`. -/
theorem invarianteAlmacenValido (cs : List CasoDeUso) :
    almacenValido (ejecutarTodos cs) = true :=
  almacenValido_foldl cs [] rfl

/-- C6: construction validates the name before the email: a name whose
trimmed length is below 2 (the empty name included) fails with the
name-validation error whatever the email is, and a name of trimmed length
at least 2 with a non-matching email fails with the email-validation
error. -/
theorem validaNombreAntesQueEmail (nombre email : String) (io : Option String)
    (g : String) (t : Nat) :
    ((recortar nombre.toList).length < 2 →
      construirUsuario nombre email io g t = .error .nombreInvalido) ∧
    (2 ≤ (recortar nombre.toList).length → esEmailValido email = false →
      construirUsuario nombre email io g t = .error .emailInvalido) := by
  constructor
  · intro h
    have h' : (recortar nombre.data).length < 2 := h
    unfold construirUsuario
    cases io <;> simp [validar, h']
  · intro h he
    have h' : 2 ≤ (recortar nombre.data).length := h
    have hne : ¬ nombre = "" := by
      intro hh; rw [hh] at h; exact absurd h (by decide)
    unfold construirUsuario
    cases io <;> simp [validar, hne, Nat.not_lt.mpr h', he]

/-- Witness for C6 at concrete inputs. -/
theorem validaNombreAntesQueEmail_testigo :
    construirUsuario "J" "sin-arroba" none "g1" 0 = .error .nombreInvalido ∧
    construirUsuario "Ana" "sin-arroba" none "g1" 0 = .error .emailInvalido :=
  ⟨(validaNombreAntesQueEmail "J" "sin-arroba" none "g1" 0).1 (by decide),
   (validaNombreAntesQueEmail "Ana" "sin-arroba" none "g1" 0).2 (by decide) (by decide)⟩

/-- C7: for a name of trimmed length at least 2 and an email matching the
pattern, construction succeeds and the constructed user's name and email
equal the inputs. -/
theorem construccionExitosa (nombre email : String) (io : Option String)
    (g : String) (t : Nat) (hn : 2 ≤ (recortar nombre.toList).length)
    (he : esEmailValido email = true) :
    ∃ u, construirUsuario nombre email io g t = .ok u ∧
      u.nombre = nombre ∧ u.email = email := by
  have hne : ¬ nombre = "" := by
    intro hh; rw [hh] at hn; exact absurd hn (by decide)
  have hee : ¬ email = "" := by
    intro hh; rw [hh] at he; exact absurd he (by decide)
  have hn' : 2 ≤ (recortar nombre.data).length := hn
  have hv : ∀ i, validar ⟨i, nombre, email, t⟩ = .ok () := by
    intro i
    simp [validar, hne, Nat.not_lt.mpr hn', hee, he]
  unfold construirUsuario
  cases io with
  | none =>
    dsimp only
    rw [hv]
    exact ⟨_, rfl, rfl, rfl⟩
  | some s =>
    dsimp only
    rw [hv]
    exact ⟨_, rfl, rfl, rfl⟩

/-- Witness for C7 at concrete inputs. -/
theorem construccionExitosa_testigo :
    ∃ u, construirUsuario "Juan Perez" "juan@example.com" none "g1" 7 = .ok u ∧
      u.nombre = "Juan Perez" ∧ u.email = "juan@example.com" :=
  construccionExitosa "Juan Perez" "juan@example.com" none "g1" 7 (by decide) (by decide)

/-- C1 counterexample: supplying the empty string as the new name (whose
substitution would violate the name rule, so the claim demands the
name-validation failure) instead succeeds and keeps the old name: the
falsy argument is swallowed by the `||` defaulting. -/
theorem actualizarDatosVacio_contraejemplo :
    actualizarDatos ⟨"u1", "Juan", "juan@mail.com", 0⟩ (some "") none "g1" 5 =
      .ok ⟨"u1", "Juan", "juan@mail.com", 5⟩ := by
  rfl

/-- C1 amended: `actualizarDatos` substitutes exactly the supplied
non-empty fields — an absent or empty-string argument keeps the current
value — and delegates to the validating constructor with the same id, so
every successful result keeps the id and passes `validar`, and an invalid
substituted value fails exactly as construction does. -/
theorem actualizarDatosCorrecto (u : Usuario) (g : String) (t : Nat) :
    (actualizarDatos u none none g t =
      construirUsuario u.nombre u.email (some u.id) g t) ∧
    (∀ n, n ≠ "" → actualizarDatos u (some n) none g t =
      construirUsuario n u.email (some u.id) g t) ∧
    (∀ e, e ≠ "" → actualizarDatos u none (some e) g t =
      construirUsuario u.nombre e (some u.id) g t) ∧
    (∀ n e, n ≠ "" → e ≠ "" → actualizarDatos u (some n) (some e) g t =
      construirUsuario n e (some u.id) g t) ∧
    (u.id ≠ "" → ∀ nn ne v, actualizarDatos u nn ne g t = .ok v →
      v.id = u.id ∧ validar v = .ok ()) := by
  refine ⟨rfl, ?_, ?_, ?_, ?_⟩
  · intro n hn; simp [actualizarDatos, hn]
  · intro e he; simp [actualizarDatos, he]
  · intro n e hn he; simp [actualizarDatos, hn, he]
  · intro hid nn ne v hv
    unfold actualizarDatos at hv
    have hs := construirUsuario_ok_spec _ _ _ _ _ _ hv
    refine ⟨?_, hs.2.2.2.1⟩
    rw [hs.2.2.2.2]
    simp [hid]

/-- Witness for C1 at concrete inputs. -/
theorem actualizarDatosCorrecto_testigo :
    actualizarDatos ⟨"u1", "Juan", "juan@mail.com", 0⟩ (some "Pedro") none "g1" 5 =
      construirUsuario "Pedro" "juan@mail.com" (some "u1") "g1" 5 :=
  (actualizarDatosCorrecto ⟨"u1", "Juan", "juan@mail.com", 0⟩ "g1" 5).2.1 "Pedro"
    (by decide)

/-- C10: for a user that passes `validar` (with a truthy id), an
empty-string argument to `actualizarDatos` behaves as an omitted one: the
call succeeds and the result keeps the current name and email, the empty
value never being substituted nor validated. -/
theorem actualizarDatosVacioMantiene (u : Usuario) (g : String) (t : Nat)
    (hval : validar u = .ok ()) (hid : u.id ≠ "") :
    actualizarDatos u (some "") none g t = .ok ⟨u.id, u.nombre, u.email, t⟩ ∧
    actualizarDatos u none (some "") g t = .ok ⟨u.id, u.nombre, u.email, t⟩ ∧
    actualizarDatos u (some "") (some "") g t = .ok ⟨u.id, u.nombre, u.email, t⟩ := by
  have hv : validar ⟨u.id, u.nombre, u.email, t⟩ = .ok () :=
    (validar_congr ⟨u.id, u.nombre, u.email, t⟩ u rfl rfl).trans hval
  have key : construirUsuario u.nombre u.email (some u.id) g t =
      .ok ⟨u.id, u.nombre, u.email, t⟩ := by
    unfold construirUsuario
    dsimp only
    rw [if_neg hid, hv]
  exact ⟨key, key, key⟩

/-- Witness for C10 at concrete inputs. -/
theorem actualizarDatosVacioMantiene_testigo :
    actualizarDatos ⟨"u1", "Juan", "juan@mail.com", 0⟩ (some "") none "g1" 5 =
        .ok ⟨"u1", "Juan", "juan@mail.com", 5⟩ ∧
    actualizarDatos ⟨"u1", "Juan", "juan@mail.com", 0⟩ none (some "") "g1" 5 =
        .ok ⟨"u1", "Juan", "juan@mail.com", 5⟩ ∧
    actualizarDatos ⟨"u1", "Juan", "juan@mail.com", 0⟩ (some "") (some "") "g1" 5 =
        .ok ⟨"u1", "Juan", "juan@mail.com", 5⟩ :=
  actualizarDatosVacioMantiene ⟨"u1", "Juan", "juan@mail.com", 0⟩ "g1" 5
    (by rfl) (by decide)

/-- C3: creating with an email already present in the store fails with the
duplicate-email error, logs the duplicate warning, performs no save (the
only port call is the existence check) and leaves the store untouched. -/
theorem crearDuplicadoFalla (s : Almacen) (d : CrearUsuarioDto) (g : String)
    (t : Nat) (nf : Bool) (h : existe s d.email = true) :
    (agregarUsuario s d g t nf).resultado = .error (.duplicado d.email) ∧
    (agregarUsuario s d g t nf).almacen = s ∧
    (agregarUsuario s d g t nf).registros =
      [.info "Iniciando creación de usuario",
       .advertencia "Intento de crear usuario duplicado"] ∧
    (agregarUsuario s d g t nf).llamadas = [.existe d.email] := by
  simp [agregarUsuario, h]

/-- Witness for C3: a second create with the email of the first fails and
keeps the one-record store. -/
theorem crearDuplicadoFalla_testigo :
    (agregarUsuario [⟨"u1", "Ana", "ana@mail.com", 3⟩] ⟨"Bea", "ana@mail.com"⟩
        "u2" 4 false).resultado = .error (.duplicado "ana@mail.com") ∧
    (agregarUsuario [⟨"u1", "Ana", "ana@mail.com", 3⟩] ⟨"Bea", "ana@mail.com"⟩
        "u2" 4 false).almacen = [⟨"u1", "Ana", "ana@mail.com", 3⟩] ∧
    (agregarUsuario [⟨"u1", "Ana", "ana@mail.com", 3⟩] ⟨"Bea", "ana@mail.com"⟩
        "u2" 4 false).registros =
      [.info "Iniciando creación de usuario",
       .advertencia "Intento de crear usuario duplicado"] ∧
    (agregarUsuario [⟨"u1", "Ana", "ana@mail.com", 3⟩] ⟨"Bea", "ana@mail.com"⟩
        "u2" 4 false).llamadas = [.existe "ana@mail.com"] :=
  crearDuplicadoFalla [⟨"u1", "Ana", "ana@mail.com", 3⟩] ⟨"Bea", "ana@mail.com"⟩
    "u2" 4 false (by rfl)

/-- C8: deleting a nonexistent id fails with the not-found error and
leaves the store unchanged; deleting an existing id returns true, removes
every record with that id, and a subsequent get-by-id on that id fails
with the not-found error. -/
theorem borradoUsuario (s : Almacen) (id : String) :
    ((∀ v ∈ s, v.id ≠ id) →
      (eliminarUsuario s id).resultado = .error (.noEncontrado ("ID: " ++ id)) ∧
      (eliminarUsuario s id).almacen = s) ∧
    ((∃ v ∈ s, v.id = id) →
      (eliminarUsuario s id).resultado = .ok true ∧
      (∀ v ∈ (eliminarUsuario s id).almacen, v.id ≠ id) ∧
      (obtenerUsuarioPorId (eliminarUsuario s id).almacen id).resultado =
        .error (.noEncontrado ("ID: " ++ id))) := by
  have halm : (eliminarUsuario s id).almacen = s.filter (fun v => v.id ≠ id) := by
    unfold eliminarUsuario
    dsimp only
    split <;> rfl
  constructor
  · intro h
    have hany : s.any (fun v => v.id = id) = false := by
      rw [Bool.eq_false_iff]
      intro hc
      obtain ⟨v, hv, hvid⟩ := List.any_eq_true.mp hc
      exact h v hv (of_decide_eq_true hvid)
    constructor
    · unfold eliminarUsuario
      dsimp only
      rw [show (eliminar s id).1 = false from hany]
      rfl
    · rw [halm]
      apply List.filter_eq_self.mpr
      intro v hv
      exact decide_eq_true (h v hv)
  · intro h
    obtain ⟨v, hv, hvid⟩ := h
    have hany : s.any (fun w => w.id = id) = true :=
      List.any_eq_true.mpr ⟨v, hv, decide_eq_true hvid⟩
    have hnone : obtenerPorId (s.filter (fun w => w.id ≠ id)) id = none := by
      unfold obtenerPorId
      apply List.find?_eq_none.mpr
      intro w hw
      have h2 := of_decide_eq_true (List.mem_filter.mp hw).2
      simp only [decide_eq_true_eq]
      exact h2
    refine ⟨?_, ?_, ?_⟩
    · unfold eliminarUsuario
      dsimp only
      rw [show (eliminar s id).1 = true from hany]
      rfl
    · intro w hw
      rw [halm] at hw
      exact of_decide_eq_true (List.mem_filter.mp hw).2
    · rw [halm]
      unfold obtenerUsuarioPorId
      dsimp only
      rw [hnone]

/-- Witness for C8 at a one-record store. -/
theorem borradoUsuario_testigo :
    ((eliminarUsuario [⟨"u1", "Ana", "ana@mail.com", 3⟩] "zz").resultado =
        .error (.noEncontrado ("ID: " ++ "zz")) ∧
      (eliminarUsuario [⟨"u1", "Ana", "ana@mail.com", 3⟩] "zz").almacen =
        [⟨"u1", "Ana", "ana@mail.com", 3⟩]) ∧
    ((eliminarUsuario [⟨"u1", "Ana", "ana@mail.com", 3⟩] "u1").resultado = .ok true ∧
      (obtenerUsuarioPorId
          (eliminarUsuario [⟨"u1", "Ana", "ana@mail.com", 3⟩] "u1").almacen
          "u1").resultado = .error (.noEncontrado ("ID: " ++ "u1"))) :=
  ⟨(borradoUsuario [⟨"u1", "Ana", "ana@mail.com", 3⟩] "zz").1 (by decide),
   ⟨((borradoUsuario [⟨"u1", "Ana", "ana@mail.com", 3⟩] "u1").2
      ⟨⟨"u1", "Ana", "ana@mail.com", 3⟩, by decide, by decide⟩).1,
    ((borradoUsuario [⟨"u1", "Ana", "ana@mail.com", 3⟩] "u1").2
      ⟨⟨"u1", "Ana", "ana@mail.com", 3⟩, by decide, by decide⟩).2.2⟩⟩

/-- Reduction of `actualizarTrasVerificacion` when the replacement fails
validation. -/
theorem actualizarTras_error (s : Almacen) (d : ActualizarUsuarioDto) (uex : Usuario)
    (g : String) (t : Nat) (nf : Bool) (r0 : List Registro) (c0 : List Llamada)
    (e : ErrorDominio) (h : actualizarDatos uex d.nombre d.email g t = .error e) :
    actualizarTrasVerificacion s d uex g t nf r0 c0 =
      { resultado := .error e, almacen := s, registros := r0, llamadas := c0 } := by
  unfold actualizarTrasVerificacion
  rw [h]

/-- Reduction of `actualizarTrasVerificacion` when the replacement is
built successfully. -/
theorem actualizarTras_ok (s : Almacen) (d : ActualizarUsuarioDto) (uex : Usuario)
    (g : String) (t : Nat) (nf : Bool) (r0 : List Registro) (c0 : List Llamada)
    (u : Usuario) (h : actualizarDatos uex d.nombre d.email g t = .ok u) :
    actualizarTrasVerificacion s d uex g t nf r0 c0 =
      { resultado := .ok (mapearADto u)
        almacen := guardar s u
        registros := r0 ++
          (if nf then [Registro.error "Error enviando notificación de actualización"]
            else []) ++ [.info "Usuario actualizado exitosamente"]
        llamadas := c0 ++ [.guardar u.id, .notificarActualizacion u.id] } := by
  unfold actualizarTrasVerificacion
  rw [h]

/-- Reduction of `actualizarUsuario` when the id is absent. -/
theorem actualizarUsuario_eq_noEncontrado (s : Almacen) (d : ActualizarUsuarioDto)
    (g : String) (t : Nat) (nf : Bool) (hex : obtenerPorId s d.id = none) :
    actualizarUsuario s d g t nf =
      { resultado := .error (.noEncontrado ("ID: " ++ d.id)), almacen := s,
        registros := [.info "Actualizando usuario"],
        llamadas := [.obtenerPorId d.id] } := by
  unfold actualizarUsuario
  rw [hex]

/-- Reduction of `actualizarUsuario` when the duplicate check is skipped:
the email is omitted, empty, or equal to the stored one. -/
theorem actualizarUsuario_eq_tras (s : Almacen) (d : ActualizarUsuarioDto)
    (g : String) (t : Nat) (nf : Bool) (uex : Usuario)
    (hex : obtenerPorId s d.id = some uex)
    (hcase : d.email = none ∨ ∃ e, d.email = some e ∧ (e = "" ∨ e = uex.email)) :
    actualizarUsuario s d g t nf =
      actualizarTrasVerificacion s d uex g t nf [.info "Actualizando usuario"]
        [.obtenerPorId d.id] := by
  unfold actualizarUsuario
  rw [hex]
  dsimp only
  rcases hcase with hnone | ⟨e, hsome, hcond⟩
  · rw [hnone]
  · rw [hsome]
    dsimp only
    rw [if_neg (by rcases hcond with rfl | rfl <;> simp)]

/-- Reduction of `actualizarUsuario` when a truthy, different email is
supplied and the duplicate check fires. -/
theorem actualizarUsuario_eq_duplicado (s : Almacen) (d : ActualizarUsuarioDto)
    (g : String) (t : Nat) (nf : Bool) (uex : Usuario) (e : String)
    (hex : obtenerPorId s d.id = some uex) (hsome : d.email = some e)
    (hne : e ≠ "") (hnee : e ≠ uex.email) (hdup : existe s e = true) :
    actualizarUsuario s d g t nf =
      { resultado := .error (.duplicado e), almacen := s,
        registros := [.info "Actualizando usuario"],
        llamadas := [.obtenerPorId d.id, .existe e] } := by
  unfold actualizarUsuario
  rw [hex]
  dsimp only
  rw [hsome]
  dsimp only
  rw [if_pos (by simp [hne, hnee]), if_pos hdup]
  rfl

/-- Reduction of `actualizarUsuario` when a truthy, different email is
supplied and the duplicate check passes. -/
theorem actualizarUsuario_eq_trasVerificado (s : Almacen) (d : ActualizarUsuarioDto)
    (g : String) (t : Nat) (nf : Bool) (uex : Usuario) (e : String)
    (hex : obtenerPorId s d.id = some uex) (hsome : d.email = some e)
    (hne : e ≠ "") (hnee : e ≠ uex.email) (hdup : existe s e = false) :
    actualizarUsuario s d g t nf =
      actualizarTrasVerificacion s d uex g t nf [.info "Actualizando usuario"]
        [.obtenerPorId d.id, .existe e] := by
  unfold actualizarUsuario
  rw [hex]
  dsimp only
  rw [hsome]
  dsimp only
  rw [if_pos (by simp [hne, hnee]), if_neg (by simp [hdup])]
  rfl

/-- A successful update comes from a successful `actualizarDatos` whose
result is what is returned and saved. -/
theorem actualizarUsuario_ok_spec (s : Almacen) (d : ActualizarUsuarioDto)
    (g : String) (t : Nat) (nf : Bool) (uex : Usuario) (r : UsuarioRespuestaDto)
    (hex : obtenerPorId s d.id = some uex)
    (hok : (actualizarUsuario s d g t nf).resultado = .ok r) :
    ∃ u, actualizarDatos uex d.nombre d.email g t = .ok u ∧ r = mapearADto u ∧
      (actualizarUsuario s d g t nf).almacen = guardar s u := by
  have htras : ∀ r0 c0,
      actualizarUsuario s d g t nf =
        actualizarTrasVerificacion s d uex g t nf r0 c0 →
      ∃ u, actualizarDatos uex d.nombre d.email g t = .ok u ∧ r = mapearADto u ∧
        (actualizarUsuario s d g t nf).almacen = guardar s u := by
    intro r0 c0 heq
    cases hc : actualizarDatos uex d.nombre d.email g t with
    | error e =>
      rw [heq, actualizarTras_error s d uex g t nf r0 c0 e hc] at hok
      exact absurd hok (by simp)
    | ok u =>
      rw [heq, actualizarTras_ok s d uex g t nf r0 c0 u hc] at hok
      refine ⟨u, rfl, (Except.ok.inj hok).symm, ?_⟩
      rw [heq, actualizarTras_ok s d uex g t nf r0 c0 u hc]
  cases hem : d.email with
  | none =>
    have h1 := actualizarUsuario_eq_tras s d g t nf uex hex (Or.inl hem)
    have h2 := htras _ _ h1
    rwa [hem] at h2
  | some e =>
    by_cases he1 : e = ""
    · have h1 := actualizarUsuario_eq_tras s d g t nf uex hex
        (Or.inr ⟨e, hem, Or.inl he1⟩)
      have h2 := htras _ _ h1
      rwa [hem] at h2
    · by_cases he2 : e = uex.email
      · have h1 := actualizarUsuario_eq_tras s d g t nf uex hex
          (Or.inr ⟨e, hem, Or.inr he2⟩)
        have h2 := htras _ _ h1
        rwa [hem] at h2
      · by_cases he3 : existe s e = true
        · rw [actualizarUsuario_eq_duplicado s d g t nf uex e hex hem he1 he2 he3]
            at hok
          exact absurd hok (by simp)
        · have h1 := actualizarUsuario_eq_trasVerificado s d g t nf uex e hex hem
            he1 he2 (Bool.eq_false_iff.mpr he3)
          have h2 := htras _ _ h1
          rwa [hem] at h2

/-- C2: a successful update returns — and saves under the same id — a
replacement user whose `fechaCreacion` is the clock reading at which the
replacement itself was constructed, not the stored user's original
creation timestamp: the constructor re-stamps the field on every call,
including the construction performed inside the update use case. -/
theorem actualizarReestampaFecha (s : Almacen) (d : ActualizarUsuarioDto)
    (g : String) (t : Nat) (nf : Bool) (uex : Usuario) (r : UsuarioRespuestaDto)
    (hex : obtenerPorId s d.id = some uex) (hid : uex.id ≠ "")
    (hok : (actualizarUsuario s d g t nf).resultado = .ok r) :
    r.id = uex.id ∧ r.fechaCreacion = t ∧
    obtenerPorId (actualizarUsuario s d g t nf).almacen uex.id =
      some ⟨uex.id, r.nombre, r.email, t⟩ := by
  obtain ⟨u, hu, hr, halm⟩ := actualizarUsuario_ok_spec s d g t nf uex r hex hok
  have hspec := construirUsuario_ok_spec _ _ _ _ _ _ (by
    unfold actualizarDatos at hu; exact hu)
  have hids : u.id = uex.id := by
    rw [hspec.2.2.2.2]
    simp [hid]
  have hfecha : u.fechaCreacion = t := hspec.2.2.1
  subst hr
  refine ⟨hids, hfecha, ?_⟩
  rw [halm, ← hids, obtenerPorId_guardar]
  obtain ⟨ui, un, ue, uf⟩ := u
  simp only [mapearADto] at hids hfecha ⊢
  rw [hids, hfecha]

/-- Witness for C2: the stored user was created at time 3, the update runs
at time 9, and both the returned DTO and the saved record carry 9. -/
theorem actualizarReestampaFecha_testigo :
    (⟨"u1", "Pedro", "ana@mail.com", 9⟩ : UsuarioRespuestaDto).id = "u1" ∧
    (⟨"u1", "Pedro", "ana@mail.com", 9⟩ : UsuarioRespuestaDto).fechaCreacion = 9 ∧
    obtenerPorId
      (actualizarUsuario [⟨"u1", "Ana", "ana@mail.com", 3⟩]
        ⟨"u1", some "Pedro", none⟩ "g" 9 false).almacen "u1" =
      some ⟨"u1", "Pedro", "ana@mail.com", 9⟩ :=
  actualizarReestampaFecha [⟨"u1", "Ana", "ana@mail.com", 3⟩]
    ⟨"u1", some "Pedro", none⟩ "g" 9 false ⟨"u1", "Ana", "ana@mail.com", 3⟩
    ⟨"u1", "Pedro", "ana@mail.com", 9⟩ (by rfl) (by decide) (by rfl)

/-- Every port call of `actualizarTrasVerificacion` is inherited from its
prefix or is a save or a notification — never an existence check. -/
theorem llamadas_actualizarTras (s : Almacen) (d : ActualizarUsuarioDto)
    (uex : Usuario) (g : String) (t : Nat) (nf : Bool) (r0 : List Registro)
    (c0 : List Llamada) (l : Llamada)
    (h : l ∈ (actualizarTrasVerificacion s d uex g t nf r0 c0).llamadas) :
    l ∈ c0 ∨ (∃ i, l = .guardar i) ∨ (∃ i, l = .notificarActualizacion i) := by
  cases hc : actualizarDatos uex d.nombre d.email g t with
  | error e =>
    rw [actualizarTras_error s d uex g t nf r0 c0 e hc] at h
    exact Or.inl h
  | ok u =>
    rw [actualizarTras_ok s d uex g t nf r0 c0 u hc] at h
    rcases List.mem_append.mp h with h1 | h1
    · exact Or.inl h1
    · simp only [List.mem_cons, List.not_mem_nil, or_false] at h1
      rcases h1 with rfl | rfl
      · exact Or.inr (Or.inl ⟨u.id, rfl⟩)
      · exact Or.inr (Or.inr ⟨u.id, rfl⟩)

/-- C4: the update use case never calls the repository existence check
when the email field is omitted or equal to the stored user's current
email; an existence check occurs only for a supplied, non-empty, different
email, and in that case an existing email makes the use case fail with
the duplicate-email error. -/
theorem actualizarVerificacionEmail (s : Almacen) (d : ActualizarUsuarioDto)
    (g : String) (t : Nat) (nf : Bool) (uex : Usuario)
    (hex : obtenerPorId s d.id = some uex) :
    ((d.email = none ∨ d.email = some uex.email) →
      ∀ e, Llamada.existe e ∉ (actualizarUsuario s d g t nf).llamadas) ∧
    (∀ e, Llamada.existe e ∈ (actualizarUsuario s d g t nf).llamadas →
      d.email = some e ∧ e ≠ "" ∧ e ≠ uex.email) ∧
    (∀ e, d.email = some e → e ≠ "" → e ≠ uex.email → existe s e = true →
      (actualizarUsuario s d g t nf).resultado = .error (.duplicado e)) := by
  refine ⟨?_, ?_, ?_⟩
  · intro hcase e hmem
    have hcase' : d.email = none ∨ ∃ x, d.email = some x ∧ (x = "" ∨ x = uex.email) := by
      rcases hcase with h | h
      · exact Or.inl h
      · exact Or.inr ⟨uex.email, h, Or.inr rfl⟩
    rw [actualizarUsuario_eq_tras s d g t nf uex hex hcase'] at hmem
    rcases llamadas_actualizarTras s d uex g t nf _ _ _ hmem with h1 | ⟨i, h1⟩ | ⟨i, h1⟩
    · simp at h1
    · exact Llamada.noConfusion h1
    · exact Llamada.noConfusion h1
  · intro e hmem
    cases hem : d.email with
    | none =>
      rw [actualizarUsuario_eq_tras s d g t nf uex hex (Or.inl hem)] at hmem
      rcases llamadas_actualizarTras s d uex g t nf _ _ _ hmem with h1 | ⟨i, h1⟩ | ⟨i, h1⟩
      · simp at h1
      · exact Llamada.noConfusion h1
      · exact Llamada.noConfusion h1
    | some x =>
      by_cases he1 : x = ""
      · rw [actualizarUsuario_eq_tras s d g t nf uex hex
          (Or.inr ⟨x, hem, Or.inl he1⟩)] at hmem
        rcases llamadas_actualizarTras s d uex g t nf _ _ _ hmem with h1 | ⟨i, h1⟩ | ⟨i, h1⟩
        · simp at h1
        · exact Llamada.noConfusion h1
        · exact Llamada.noConfusion h1
      · by_cases he2 : x = uex.email
        · rw [actualizarUsuario_eq_tras s d g t nf uex hex
            (Or.inr ⟨x, hem, Or.inr he2⟩)] at hmem
          rcases llamadas_actualizarTras s d uex g t nf _ _ _ hmem with h1 | ⟨i, h1⟩ | ⟨i, h1⟩
          · simp at h1
          · exact Llamada.noConfusion h1
          · exact Llamada.noConfusion h1
        · by_cases he3 : existe s x = true
          · rw [actualizarUsuario_eq_duplicado s d g t nf uex x hex hem he1 he2 he3]
              at hmem
            have hx : e = x := by simpa using hmem
            subst hx
            exact ⟨rfl, he1, he2⟩
          · rw [actualizarUsuario_eq_trasVerificado s d g t nf uex x hex hem he1 he2
              (Bool.eq_false_iff.mpr he3)] at hmem
            rcases llamadas_actualizarTras s d uex g t nf _ _ _ hmem with h1 | ⟨i, h1⟩ | ⟨i, h1⟩
            · have hx : e = x := by simpa using h1
              subst hx
              exact ⟨rfl, he1, he2⟩
            · exact Llamada.noConfusion h1
            · exact Llamada.noConfusion h1
  · intro e hsome hne hnee hdup
    rw [actualizarUsuario_eq_duplicado s d g t nf uex e hex hsome hne hnee hdup]

/-- Witness for C4: with a second user bea@mail.com in the store, a
name-only update of the first user performs no existence check, while an
update of the first user to bea@mail.com fails with the duplicate error. -/
theorem actualizarVerificacionEmail_testigo :
    (Llamada.existe "bea@mail.com" ∉
      (actualizarUsuario
        [⟨"u1", "Ana", "ana@mail.com", 3⟩, ⟨"u2", "Bea", "bea@mail.com", 4⟩]
        ⟨"u1", some "Pedro", none⟩ "g" 9 false).llamadas) ∧
    (actualizarUsuario
        [⟨"u1", "Ana", "ana@mail.com", 3⟩, ⟨"u2", "Bea", "bea@mail.com", 4⟩]
        ⟨"u1", none, some "bea@mail.com"⟩ "g" 9 false).resultado =
      .error (.duplicado "bea@mail.com") :=
  ⟨(actualizarVerificacionEmail
      [⟨"u1", "Ana", "ana@mail.com", 3⟩, ⟨"u2", "Bea", "bea@mail.com", 4⟩]
      ⟨"u1", some "Pedro", none⟩ "g" 9 false ⟨"u1", "Ana", "ana@mail.com", 3⟩
      (by rfl)).1 (Or.inl rfl) "bea@mail.com",
   (actualizarVerificacionEmail
      [⟨"u1", "Ana", "ana@mail.com", 3⟩, ⟨"u2", "Bea", "bea@mail.com", 4⟩]
      ⟨"u1", none, some "bea@mail.com"⟩ "g" 9 false ⟨"u1", "Ana", "ana@mail.com", 3⟩
      (by rfl)).2.2 "bea@mail.com" rfl (by decide) (by decide) (by rfl)⟩

/-- Reduction of `agregarUsuario` on a duplicate email. -/
theorem agregarUsuario_eq_dup (s : Almacen) (d : CrearUsuarioDto) (g : String)
    (t : Nat) (nf : Bool) (hex : existe s d.email = true) :
    agregarUsuario s d g t nf =
      { resultado := .error (.duplicado d.email), almacen := s,
        registros := [.info "Iniciando creación de usuario",
          .advertencia "Intento de crear usuario duplicado"],
        llamadas := [.existe d.email] } := by
  unfold agregarUsuario
  rw [if_pos hex]
  rfl

/-- Reduction of `agregarUsuario` when construction fails. -/
theorem agregarUsuario_eq_error (s : Almacen) (d : CrearUsuarioDto) (g : String)
    (t : Nat) (nf : Bool) (e : ErrorDominio) (hex : existe s d.email = false)
    (hc : construirUsuario d.nombre d.email none g t = .error e) :
    agregarUsuario s d g t nf =
      { resultado := .error e, almacen := s,
        registros := [.info "Iniciando creación de usuario"],
        llamadas := [.existe d.email] } := by
  unfold agregarUsuario
  rw [if_neg (by simp [hex]), hc]

/-- Reduction of `agregarUsuario` on the success path. -/
theorem agregarUsuario_eq_ok (s : Almacen) (d : CrearUsuarioDto) (g : String)
    (t : Nat) (nf : Bool) (u : Usuario) (hex : existe s d.email = false)
    (hc : construirUsuario d.nombre d.email none g t = .ok u) :
    agregarUsuario s d g t nf =
      { resultado := .ok (mapearADto u), almacen := guardar s u,
        registros := [.info "Iniciando creación de usuario"] ++
          (if nf then [Registro.error "Error enviando notificación de bienvenida"]
            else []) ++ [.info "Usuario creado exitosamente"],
        llamadas := [.existe d.email, .guardar u.id, .enviarBienvenida u.id] } := by
  unfold agregarUsuario
  rw [if_neg (by simp [hex]), hc]
  rfl

/-- The notifier flag changes neither result nor store of create, and a
successful create with the failing notifier logged the error. -/
theorem agregarUsuario_nf (s : Almacen) (d : CrearUsuarioDto) (g : String) (t : Nat) :
    (agregarUsuario s d g t true).resultado = (agregarUsuario s d g t false).resultado ∧
    (agregarUsuario s d g t true).almacen = (agregarUsuario s d g t false).almacen ∧
    (∀ r, (agregarUsuario s d g t true).resultado = .ok r →
      Registro.error "Error enviando notificación de bienvenida" ∈
        (agregarUsuario s d g t true).registros) := by
  by_cases hex : existe s d.email = true
  · rw [agregarUsuario_eq_dup s d g t true hex, agregarUsuario_eq_dup s d g t false hex]
    exact ⟨rfl, rfl, fun r h => absurd h (by simp)⟩
  · have hex' : existe s d.email = false := Bool.eq_false_iff.mpr hex
    cases hc : construirUsuario d.nombre d.email none g t with
    | error e =>
      rw [agregarUsuario_eq_error s d g t true e hex' hc,
          agregarUsuario_eq_error s d g t false e hex' hc]
      exact ⟨rfl, rfl, fun r h => absurd h (by simp)⟩
    | ok u =>
      rw [agregarUsuario_eq_ok s d g t true u hex' hc,
          agregarUsuario_eq_ok s d g t false u hex' hc]
      refine ⟨rfl, rfl, ?_⟩
      intro r h
      simp

/-- The notifier flag changes neither result nor store of
`actualizarTrasVerificacion`, and a successful run with the failing
notifier logged the error. -/
theorem actualizarTras_nf (s : Almacen) (d : ActualizarUsuarioDto) (uex : Usuario)
    (g : String) (t : Nat) (r0 : List Registro) (c0 : List Llamada) :
    (actualizarTrasVerificacion s d uex g t true r0 c0).resultado =
      (actualizarTrasVerificacion s d uex g t false r0 c0).resultado ∧
    (actualizarTrasVerificacion s d uex g t true r0 c0).almacen =
      (actualizarTrasVerificacion s d uex g t false r0 c0).almacen ∧
    (∀ r, (actualizarTrasVerificacion s d uex g t true r0 c0).resultado = .ok r →
      Registro.error "Error enviando notificación de actualización" ∈
        (actualizarTrasVerificacion s d uex g t true r0 c0).registros) := by
  cases hc : actualizarDatos uex d.nombre d.email g t with
  | error e =>
    rw [actualizarTras_error s d uex g t true r0 c0 e hc,
        actualizarTras_error s d uex g t false r0 c0 e hc]
    exact ⟨rfl, rfl, fun r h => absurd h (by simp)⟩
  | ok u =>
    rw [actualizarTras_ok s d uex g t true r0 c0 u hc,
        actualizarTras_ok s d uex g t false r0 c0 u hc]
    refine ⟨rfl, rfl, ?_⟩
    intro r h
    simp

/-- The notifier flag changes neither result nor store of update, and a
successful update with the failing notifier logged the error. -/
theorem actualizarUsuario_nf (s : Almacen) (d : ActualizarUsuarioDto)
    (g : String) (t : Nat) :
    (actualizarUsuario s d g t true).resultado =
      (actualizarUsuario s d g t false).resultado ∧
    (actualizarUsuario s d g t true).almacen =
      (actualizarUsuario s d g t false).almacen ∧
    (∀ r, (actualizarUsuario s d g t true).resultado = .ok r →
      Registro.error "Error enviando notificación de actualización" ∈
        (actualizarUsuario s d g t true).registros) := by
  cases hex : obtenerPorId s d.id with
  | none =>
    rw [actualizarUsuario_eq_noEncontrado s d g t true hex,
        actualizarUsuario_eq_noEncontrado s d g t false hex]
    exact ⟨rfl, rfl, fun r h => absurd h (by simp)⟩
  | some uex =>
    cases hem : d.email with
    | none =>
      rw [actualizarUsuario_eq_tras s d g t true uex hex (Or.inl hem),
          actualizarUsuario_eq_tras s d g t false uex hex (Or.inl hem)]
      exact actualizarTras_nf s d uex g t _ _
    | some e =>
      by_cases he1 : e = ""
      · rw [actualizarUsuario_eq_tras s d g t true uex hex (Or.inr ⟨e, hem, Or.inl he1⟩),
            actualizarUsuario_eq_tras s d g t false uex hex (Or.inr ⟨e, hem, Or.inl he1⟩)]
        exact actualizarTras_nf s d uex g t _ _
      · by_cases he2 : e = uex.email
        · rw [actualizarUsuario_eq_tras s d g t true uex hex
              (Or.inr ⟨e, hem, Or.inr he2⟩),
            actualizarUsuario_eq_tras s d g t false uex hex
              (Or.inr ⟨e, hem, Or.inr he2⟩)]
          exact actualizarTras_nf s d uex g t _ _
        · by_cases he3 : existe s e = true
          · rw [actualizarUsuario_eq_duplicado s d g t true uex e hex hem he1 he2 he3,
                actualizarUsuario_eq_duplicado s d g t false uex e hex hem he1 he2 he3]
            exact ⟨rfl, rfl, fun r h => absurd h (by simp)⟩
          · rw [actualizarUsuario_eq_trasVerificado s d g t true uex e hex hem he1 he2
                (Bool.eq_false_iff.mpr he3),
              actualizarUsuario_eq_trasVerificado s d g t false uex e hex hem he1 he2
                (Bool.eq_false_iff.mpr he3)]
            exact actualizarTras_nf s d uex g t _ _

/-- C5: a notifier that fails on every call never makes create or update
fail: the result and the saved store are identical to those with a
succeeding notifier, and whenever the use case succeeds under the failing
notifier the notification error has been caught and logged. -/
theorem notificadorFallaInofensiva (s : Almacen) (dc : CrearUsuarioDto)
    (da : ActualizarUsuarioDto) (g : String) (t : Nat) :
    ((agregarUsuario s dc g t true).resultado =
      (agregarUsuario s dc g t false).resultado) ∧
    ((agregarUsuario s dc g t true).almacen =
      (agregarUsuario s dc g t false).almacen) ∧
    (∀ r, (agregarUsuario s dc g t true).resultado = .ok r →
      Registro.error "Error enviando notificación de bienvenida" ∈
        (agregarUsuario s dc g t true).registros) ∧
    ((actualizarUsuario s da g t true).resultado =
      (actualizarUsuario s da g t false).resultado) ∧
    ((actualizarUsuario s da g t true).almacen =
      (actualizarUsuario s da g t false).almacen) ∧
    (∀ r, (actualizarUsuario s da g t true).resultado = .ok r →
      Registro.error "Error enviando notificación de actualización" ∈
        (actualizarUsuario s da g t true).registros) :=
  ⟨(agregarUsuario_nf s dc g t).1, (agregarUsuario_nf s dc g t).2.1,
   (agregarUsuario_nf s dc g t).2.2,
   (actualizarUsuario_nf s da g t).1, (actualizarUsuario_nf s da g t).2.1,
   (actualizarUsuario_nf s da g t).2.2⟩

/-- Witness for C5: with the always-failing notifier, a concrete create
and a concrete update both succeed and both logged the caught error. -/
theorem notificadorFallaInofensiva_testigo :
    Registro.error "Error enviando notificación de bienvenida" ∈
      (agregarUsuario [] ⟨"Ana", "ana@mail.com"⟩ "u1" 3 true).registros ∧
    Registro.error "Error enviando notificación de actualización" ∈
      (actualizarUsuario [⟨"u1", "Ana", "ana@mail.com", 3⟩]
        ⟨"u1", some "Pedro", none⟩ "g" 9 true).registros :=
  ⟨(notificadorFallaInofensiva [] ⟨"Ana", "ana@mail.com"⟩
      ⟨"u1", some "Pedro", none⟩ "u1" 3).2.2.1
      ⟨"u1", "Ana", "ana@mail.com", 3⟩ (by rfl),
   (notificadorFallaInofensiva [⟨"u1", "Ana", "ana@mail.com", 3⟩]
      ⟨"Ana", "ana@mail.com"⟩ ⟨"u1", some "Pedro", none⟩ "g" 9).2.2.2.2.2
      ⟨"u1", "Pedro", "ana@mail.com", 9⟩ (by rfl)⟩
